import Mathlib

/-!
Verification of the OpenOligo firmware driver core
(`openoligo/driver/switch.py`, `openoligo/driver/manifold.py`,
`openoligo/driver/types.py`) as a shallow embedding in Lean 4.

Python objects become immutable Lean structures; mutation becomes
explicit state passing; a Python exception becomes `Except.error`.
The shared `Board` resource is threaded next to the device that uses it.
-/

namespace OpenOligo

/-- The error taxonomy of the driver core: `SwitchingError` and
`InvalidManifoldSizeError` from `openoligo/driver/types.py`,
Python's builtin `ValueError` (raised by `Manifold.set`/`Manifold.value`
on a range fault) and `AssertionError` (raised by the `assert`
statements of `periodic_toggle`). -/
inductive DriverError where
  | switchingError (msg : String)
  | invalidManifoldSizeError (msg : String)
  | valueError (msg : String)
  | assertionError (msg : String)
  deriving Repr, DecidableEq

/-- Modelled from the spec: the Board capability (the module
`openoligo.driver.board` is imported by `switch.py` but its source is
not available; spec section 6 fixes its interface as
`set(pin_identity, bool) -> void` and `value(pin_identity) -> bool`).
Pin identities are opaque with equality semantics only, embedded as
`Nat`.  `pins` is the state reported per pin; `history` records every
`set` command issued, so that claims counting Board commands can be
stated. -/
structure Board where
  pins : Nat → Bool
  history : List (Nat × Bool)

/-- Modelled from the spec: `Board.set(pin, state)` drives the pin to
the given state.  The command is appended to the history. -/
def Board.set (b : Board) (pin : Nat) (state : Bool) : Board :=
  { pins := fun p => if p = pin then state else b.pins p,
    history := b.history ++ [(pin, state)] }

/-- Modelled from the spec: `Board.value(pin)` reports the current
state of the pin. -/
def Board.value (b : Board) (pin : Nat) : Bool :=
  b.pins pin

/-- Dataclass `BaseSwitch` from `switch.py`: `name`, `gpio_pin`,
`_switch_count` (starts at 0), `_state` (starts `False`).
The `board` field of the Python dataclass is a reference to the shared
`Board`, which is threaded explicitly next to the switch here. -/
structure BaseSwitch where
  name : String
  gpio_pin : Nat
  switch_count : Nat
  state : Bool

/-- The dataclass constructor: `_switch_count = 0`, `_state = False`. -/
def mkBaseSwitch (name : String) (gpio_pin : Nat) : BaseSwitch :=
  { name := name, gpio_pin := gpio_pin, switch_count := 0, state := false }

/-- Method `BaseSwitch.set`: writes the cached `_state`, increments
`_switch_count`, and issues one `board.set(gpio_pin, state)` command. -/
def BaseSwitch.set (s : BaseSwitch) (b : Board) (state : Bool) :
    BaseSwitch × Board :=
  ({ s with state := state, switch_count := s.switch_count + 1 },
   b.set s.gpio_pin state)

/-- Property `BaseSwitch.value`: raises `SwitchingError` if the cached `_state`
differs from a fresh `board.value(gpio_pin)` read, otherwise returns
the cached `_state`.  The switch itself is not modified (the Python
property only reads). -/
def BaseSwitch.value (s : BaseSwitch) (b : Board) : Except DriverError Bool :=
  if s.state ≠ b.value s.gpio_pin then
    .error (.switchingError ("Switch (" ++ s.name ++ ") is not set"))
  else
    .ok s.state

/-- Class `Pump` from `switch.py` is a `BaseSwitch` whose `set` calls
`super().set(state)` and then only logs. -/
abbrev Pump := BaseSwitch

/-- Method `Pump.set`: delegates to `BaseSwitch.set`; the extra branch only
logs, so the state effect is identical. -/
def Pump.set (p : Pump) (b : Board) (state : Bool) : Pump × Board :=
  BaseSwitch.set p b state

/-- Modelled from the spec: `ValveType` (imported by `switch.py` from
`openoligo.driver.types` but absent from the available `types.py`;
spec section 3: `valve_type ∈ \x7bNORMALLY_OPEN, NORMALLY_CLOSED\x7d`). -/
inductive ValveType where
  | NORMALLY_OPEN
  | NORMALLY_CLOSED
  deriving Repr, DecidableEq

/-- Modelled from the spec: `ValveState` (imported by `switch.py` from
`openoligo.driver.types` but absent from the available `types.py`;
spec section 3: `state ∈ \x7bOPEN_FLOW, CLOSED_FLOW\x7d`). -/
inductive ValveState where
  | OPEN_FLOW
  | CLOSED_FLOW
  deriving Repr, DecidableEq

/-- Dataclass `BaseValve` from `switch.py`: `pin`, `name`, `gpio_pin`,
`valve_type` (default `NORMALLY_OPEN`), `_switch_count` (starts at 0),
`_state` (set by `__post_init__`).  The unused `board` reference is the
globally threaded `Board`; `BaseValve.set` and `BaseValve.value` never
touch it. -/
structure BaseValve where
  pin : Nat
  name : String
  gpio_pin : Nat
  valve_type : ValveType
  switch_count : Nat
  state : ValveState

/-- The dataclass constructor followed by `__post_init__`:
`_state = CLOSED_FLOW if valve_type == NORMALLY_CLOSED else OPEN_FLOW`. -/
def mkBaseValve (pin : Nat) (name : String) (gpio_pin : Nat)
    (valve_type : ValveType) : BaseValve :=
  { pin := pin, name := name, gpio_pin := gpio_pin,
    valve_type := valve_type, switch_count := 0,
    state := if valve_type = ValveType.NORMALLY_CLOSED then
               ValveState.CLOSED_FLOW
             else
               ValveState.OPEN_FLOW }

/-- The constructor with `valve_type` left to its declared default
`ValveType.NORMALLY_OPEN`. -/
def mkBaseValveDefault (pin : Nat) (name : String) (gpio_pin : Nat) :
    BaseValve :=
  mkBaseValve pin name gpio_pin ValveType.NORMALLY_OPEN

/-- Method `BaseValve.set`: maps the boolean to `OPEN_FLOW`/`CLOSED_FLOW`,
increments `_switch_count`, and logs.  No Board interaction. -/
def BaseValve.set (v : BaseValve) (state : Bool) : BaseValve :=
  { v with
    state := if state then ValveState.OPEN_FLOW else ValveState.CLOSED_FLOW,
    switch_count := v.switch_count + 1 }

/-- Property `BaseValve.value`: `self._state == ValveState.OPEN_FLOW`.
Never raises. -/
def BaseValve.value (v : BaseValve) : Bool :=
  v.state = ValveState.OPEN_FLOW

/-- View of `BaseValve.set` as seen with the shared `Board` threaded through:
the Python method reads and writes only `self`, so the board passes
through unchanged (no command issued). -/
def BaseValve.setWithBoard (v : BaseValve) (b : Board) (state : Bool) :
    BaseValve × Board :=
  (v.set state, b)

/-- Function `toggle(switch)` from `switch.py` applied to a `BaseSwitch`:
`switch.set(not switch.value)`; the `value` read may raise
`SwitchingError`, which propagates. -/
def toggleSwitch (s : BaseSwitch) (b : Board) :
    Except DriverError (BaseSwitch × Board) :=
  match s.value b with
  | .error e => .error e
  | .ok v => .ok (s.set b (!v))

/-- Function `toggle(switch)` from `switch.py` applied to a `BaseValve`:
`switch.set(not switch.value)`; `BaseValve.value` never raises. -/
def toggleValve (v : BaseValve) : BaseValve :=
  v.set (!v.value)

/-- The `Switchable` protocol of `types.py`, over a device state type
`D`: a constructor taking `(pin, name)`, a `set`, and a `value`
(`value` may raise, as `BaseSwitch.value` does; devices used inside a
`Manifold` are duck-typed against exactly this interface). -/
structure SwitchableOps (D : Type) where
  mkDevice : Nat → String → D
  set : D → Bool → D
  value : D → Except DriverError Bool

/-- In-place update of `switches[index]`, embedding the Python
statement `self.switches[index].set(state)`. -/
def modifyAt (f : α → α) : Nat → List α → List α
  | _, [] => []
  | 0, a :: l => f a :: l
  | n + 1, a :: l => a :: modifyAt f n l

/-- Dataclass `Manifold` from `manifold.py`: `switch_type` (the duck-typed device
operations), `size`, and the `switches` list built in
`__post_init__`. -/
structure Manifold (D : Type) where
  ops : SwitchableOps D
  size : Int
  switches : List D

/-- Constant `Manifold.VALID_SIZES = \x7b4, 8, 10, 16, 20\x7d`. -/
def VALID_SIZES : List Int := [4, 8, 10, 16, 20]

/-- Constructor hook `Manifold.__post_init__`: raises `InvalidManifoldSizeError` when
`size` is not in `VALID_SIZES`, otherwise builds
`[switch_type(i, "Switch i") for i in range(size)]`. -/
def mkManifold (ops : SwitchableOps D) (size : Int) :
    Except DriverError (Manifold D) :=
  if size ∈ VALID_SIZES then
    .ok { ops := ops, size := size,
          switches := (List.range size.toNat).map
            (fun i => ops.mkDevice i ("Switch " ++ toString i)) }
  else
    .error (.invalidManifoldSizeError
      ("Invalid switch size: " ++ toString size ++
       ". Must be one of \x7b4, 8, 10, 16, 20\x7d"))

/-- Method `Manifold.set(index, state)`: raises `ValueError` when
`index < 0 or index >= self.size`, otherwise performs
`self.switches[index].set(state)`. -/
def Manifold.set (m : Manifold D) (index : Int) (state : Bool) :
    Except DriverError (Manifold D) :=
  if index < 0 ∨ index ≥ m.size then
    .error (.valueError ("Index out of range: " ++ toString index))
  else
    .ok { m with
          switches := modifyAt (fun d => m.ops.set d state)
            index.toNat m.switches }

/-- Method `Manifold.value(index)`: raises `ValueError` when
`index < 0 or index >= self.size`, otherwise returns
`self.switches[index].value` (propagating any `SwitchingError`).
The `none` branch is Python's `IndexError`, unreachable for a manifold
built by `mkManifold`. -/
def Manifold.value (m : Manifold D) (index : Int) :
    Except DriverError Bool :=
  if index < 0 ∨ index ≥ m.size then
    .error (.valueError ("Index out of range: " ++ toString index))
  else
    match m.switches[index.toNat]? with
    | some d => m.ops.value d
    | none => .error (.valueError ("list index out of range"))

/-- Function `set_one_hot(manifold, index)` from `manifold.py`:
`for i in range(manifold.size): manifold.set(i, i == index)`. -/
def set_one_hot (m : Manifold D) (index : Int) :
    Except DriverError (Manifold D) :=
  (List.range m.size.toNat).foldlM
    (fun acc (i : Nat) => acc.set (i : Int) (decide ((i : Int) = index))) m

/-- The sequence of `(index, state)` commands the `set_one_hot` loop
issues to `Manifold.set`, in program order. -/
def set_one_hot_commands (m : Manifold D) (index : Int) :
    List (Nat × Bool) :=
  (List.range m.size.toNat).map (fun i => (i, decide ((i : Int) = index)))

/-- The `while loop_forever or count > 0` loop of `periodic_toggle`,
run for at most `fuel` iterations (`none` when the fuel runs out with
the loop still going, which models non-termination of the unbounded
Python loop).  Each iteration decrements `count` by
`1 if count > 0 else 0` and then toggles.  A `SwitchingError` from
`toggle` — the only error `toggleSwitch` can produce — is caught by the
`except SwitchingError` clause: the loop stops, the error is logged and
returned as data, not raised.  The `time.sleep(interval)` call has no
state effect and is not modelled. -/
def periodicLoop (loop_forever : Bool) :
    Nat → Int → BaseSwitch → Board →
    Option (BaseSwitch × Board × Option DriverError)
  | 0, count, s, b =>
      if loop_forever || count > 0 then none else some (s, b, none)
  | fuel + 1, count, s, b =>
      if loop_forever || count > 0 then
        let count' := count - (if count > 0 then 1 else 0)
        match toggleSwitch s b with
        | .error e => some (s, b, some e)
        | .ok (s', b') => periodicLoop loop_forever fuel count' s' b'
      else some (s, b, none)

/-- Function `periodic_toggle(switch, interval, loop_forever, count)` from
`switch.py`: asserts `interval > 0`, then `count > 0 or loop_forever`
(an `AssertionError` propagates), then runs the toggle loop.  `fuel`
bounds the number of iterations observed. -/
def periodic_toggle (s : BaseSwitch) (b : Board) (interval : Rat)
    (loop_forever : Bool) (count : Int) (fuel : Nat) :
    Except DriverError (Option (BaseSwitch × Board × Option DriverError)) :=
  if ¬ interval > 0 then
    .error (.assertionError ("Interval must be greater than 0"))
  else if ¬ (count > 0 ∨ loop_forever = true) then
    .error (.assertionError ("Must toggle at least once"))
  else
    .ok (periodicLoop loop_forever fuel count s b)

/-- The duck-typed device operations of `BaseValve`, used to
instantiate the generic `Manifold`.  `mkDevice` follows the
`Switchable` protocol signature `(pin, name)`; the GPIO pin of the
constructed valve is taken to be its pin index.  `value` never
raises. -/
def valveOps : SwitchableOps BaseValve :=
  { mkDevice := fun pin name => mkBaseValve pin name pin ValveType.NORMALLY_OPEN,
    set := BaseValve.set,
    value := fun v => .ok v.value }

/-- A concrete all-low board with an empty command history. -/
def board0 : Board :=
  { pins := fun _ => false, history := [] }

/-- A concrete four-valve manifold, as `Manifold.__post_init__` builds
it for `size = 4`. -/
def manifold4 : Manifold BaseValve :=
  { ops := valveOps, size := 4,
    switches := (List.range 4).map
      (fun i => valveOps.mkDevice i ("Switch " ++ toString i)) }

theorem Board.value_set_self (b : Board) (pin : Nat) (st : Bool) :
    (b.set pin st).value pin = st := by
  simp [Board.set, Board.value]

theorem valveOps_faithful (d : BaseValve) (st : Bool) :
    valveOps.value (valveOps.set d st) = .ok st := by
  cases st <;> rfl

theorem length_modifyAt (f : α → α) :
    ∀ (n : Nat) (l : List α), (modifyAt f n l).length = l.length
  | n, [] => by cases n <;> rfl
  | 0, _ :: _ => rfl
  | n + 1, _ :: l => by simp [modifyAt, length_modifyAt f n l]

theorem getElem?_modifyAt (f : α → α) :
    ∀ (n : Nat) (l : List α) (k : Nat),
      (modifyAt f n l)[k]? =
        if k = n then Option.map f l[k]? else l[k]?
  | n, [], k => by cases n <;> cases k <;> simp [modifyAt]
  | 0, a :: l, 0 => by simp [modifyAt]
  | 0, a :: l, k + 1 => by simp [modifyAt]
  | n + 1, a :: l, 0 => by simp [modifyAt]
  | n + 1, a :: l, k + 1 => by
      simp [modifyAt, getElem?_modifyAt f n l k]

/-- An in-range `Manifold.set` succeeds and updates exactly the chosen
device. -/
theorem Manifold.set_ok (m : Manifold D) (index : Int) (st : Bool)
    (h : ¬ (index < 0 ∨ index ≥ m.size)) :
    m.set index st =
      .ok ⟨m.ops, m.size,
           modifyAt (fun d => m.ops.set d st) index.toNat m.switches⟩ := by
  rw [Manifold.set, if_neg h]

/-- Characterization of the first `n` iterations of the `set_one_hot`
loop: they succeed and rewrite exactly the devices at positions below
`n`, commanding each device `k` to `k == index`. -/
theorem foldl_set_range_spec (m : Manifold D) (index : Int) :
    ∀ n, n ≤ m.size.toNat →
      ∃ m' : Manifold D,
        (List.range n).foldlM
          (fun acc i => acc.set (i : Int) (decide ((i : Int) = index))) m
          = .ok m' ∧
        m'.ops = m.ops ∧ m'.size = m.size ∧
        m'.switches.length = m.switches.length ∧
        (∀ k : Nat, m'.switches[k]? =
          if k < n then
            Option.map (fun d => m.ops.set d (decide ((k : Int) = index)))
              m.switches[k]?
          else m.switches[k]?) := by
  intro n
  induction n with
  | zero =>
      intro _
      exact ⟨m, rfl, rfl, rfl, rfl, fun k => by simp⟩
  | succ n ih =>
      intro hn
      obtain ⟨m₁, hfold, hops, hsize, hlen₁, hget⟩ := ih (Nat.le_of_succ_le hn)
      have hnlt : (n : Int) < m.size := Int.lt_toNat.mp (Nat.lt_of_succ_le hn)
      have hcheck : ¬ ((n : Int) < 0 ∨ (n : Int) ≥ m₁.size) := by
        push_neg
        exact ⟨Int.natCast_nonneg n, by rw [hsize]; exact hnlt⟩
      refine ⟨⟨m₁.ops, m₁.size, modifyAt (fun d => m₁.ops.set d (decide ((n : Int) = index))) (Int.toNat (n : Int)) m₁.switches⟩, ?_, hops, hsize, ?_, ?_⟩
      · rw [List.range_succ, List.foldlM_append, hfold]
        show List.foldlM
          (fun acc i => acc.set (i : Int) (decide ((i : Int) = index)))
          m₁ [n] = _
        rw [List.foldlM_cons,
          Manifold.set_ok m₁ (n : Int) (decide ((n : Int) = index)) hcheck]
        rfl
      · simpa [length_modifyAt] using hlen₁
      · intro k
        have : (Int.toNat (n : Int)) = n := Int.toNat_natCast n
        rw [getElem?_modifyAt, this]
        rcases Nat.lt_trichotomy k n with hk | hk | hk
        · rw [if_neg (Nat.ne_of_lt hk), hget k, if_pos hk,
            if_pos (Nat.lt_succ_of_lt hk)]
        · subst hk
          rw [if_pos rfl, hget k, if_neg (Nat.lt_irrefl k),
            if_pos (Nat.lt_succ_self k), hops]
        · rw [if_neg (Nat.ne_of_gt hk), hget k,
            if_neg (Nat.lt_asymm hk), if_neg (by omega)]

/-- Running `set_one_hot m index` always succeeds (for a well-formed manifold)
and commands device `k` to `k == index` for every position `k`. -/
theorem set_one_hot_eq (m : Manifold D) (index : Int) :
    ∃ m' : Manifold D,
      set_one_hot m index = .ok m' ∧
      m'.ops = m.ops ∧ m'.size = m.size ∧
      m'.switches.length = m.switches.length ∧
      (∀ k : Nat, k < m.size.toNat →
        m'.switches[k]? =
          Option.map (fun d => m.ops.set d (decide ((k : Int) = index)))
            m.switches[k]?) := by
  obtain ⟨m', h₁, h₂, h₃, h₄, h₅⟩ :=
    foldl_set_range_spec m index m.size.toNat (Nat.le_refl _)
  refine ⟨m', ?_, h₂, h₃, h₄, fun k hk => by rw [h₅ k, if_pos hk]⟩
  unfold set_one_hot
  exact h₁

theorem BaseSwitch.value_ok (s : BaseSwitch) (b : Board)
    (h : s.state = b.value s.gpio_pin) : s.value b = .ok s.state := by
  rw [BaseSwitch.value, if_neg (not_not_intro h)]

theorem BaseSwitch.value_error (s : BaseSwitch) (b : Board)
    (h : s.state ≠ b.value s.gpio_pin) :
    s.value b =
      .error (.switchingError ("Switch (" ++ s.name ++ ") is not set")) := by
  rw [BaseSwitch.value, if_pos h]

theorem toggleSwitch_ok (s : BaseSwitch) (b : Board)
    (h : s.state = b.value s.gpio_pin) :
    toggleSwitch s b = .ok (s.set b (!s.state)) := by
  rw [toggleSwitch, BaseSwitch.value_ok s b h]

theorem toggleSwitch_error (s : BaseSwitch) (b : Board)
    (h : s.state ≠ b.value s.gpio_pin) :
    toggleSwitch s b =
      .error (.switchingError ("Switch (" ++ s.name ++ ") is not set")) := by
  rw [toggleSwitch, BaseSwitch.value_error s b h]

/-- Since `BaseSwitch.set` writes the same state to the cache and the board,
so right after any `set` the cache/board agreement holds. -/
theorem set_sync (s : BaseSwitch) (b : Board) (st : Bool) :
    (s.set b st).1.state = (s.set b st).2.value (s.set b st).1.gpio_pin := by
  simp [BaseSwitch.set, Board.value_set_self]

/-- One iteration of the bounded toggle loop with a positive count and
a succeeding toggle. -/
theorem periodicLoop_step (fuel : Nat) (count : Int) (s : BaseSwitch)
    (b : Board) (s₁ : BaseSwitch) (b₁ : Board) (hc : 0 < count)
    (htog : toggleSwitch s b = .ok (s₁, b₁)) :
    periodicLoop false (fuel + 1) count s b =
      periodicLoop false fuel (count - 1) s₁ b₁ := by
  have hcond : (false || decide (count > 0)) = true := by simp [hc]
  simp only [periodicLoop, hcond, if_true, htog]
  rw [if_pos hc]

/-- The bounded toggle loop exits normally as soon as the count is
exhausted. -/
theorem periodicLoop_exit (fuel : Nat) (count : Int) (s : BaseSwitch)
    (b : Board) (hc : ¬ count > 0) :
    periodicLoop false fuel count s b = some (s, b, none) := by
  cases fuel <;> simp [periodicLoop, hc]

/-- When a toggle raises, the `except SwitchingError` clause stops the
loop: the loop returns normally carrying the caught error. -/
theorem periodicLoop_catch (fuel : Nat) (count : Int) (lf : Bool)
    (s : BaseSwitch) (b : Board) (e : DriverError)
    (hrun : (lf || decide (count > 0)) = true)
    (htog : toggleSwitch s b = .error e) :
    periodicLoop lf (fuel + 1) count s b = some (s, b, some e) := by
  simp only [periodicLoop, hrun, if_true, htog]

/-- With `loop_forever = true` the loop's behaviour does not depend on
`count` at all. -/
theorem periodicLoop_forever_count_irrelevant :
    ∀ (fuel : Nat) (c₁ c₂ : Int) (s : BaseSwitch) (b : Board),
      periodicLoop true fuel c₁ s b = periodicLoop true fuel c₂ s b := by
  intro fuel
  induction fuel with
  | zero => intro c₁ c₂ s b; simp [periodicLoop]
  | succ fuel ih =>
      intro c₁ c₂ s b
      simp only [periodicLoop, Bool.true_or, if_true]
      cases htog : toggleSwitch s b with
      | error e => rfl
      | ok p =>
          obtain ⟨s', b'⟩ := p
          exact ih _ _ s' b'

/-- Under cache/board agreement every toggle succeeds, so the bounded
toggle loop performs exactly `count` toggles, exits normally, and the
agreement still holds at the end. -/
theorem periodicLoop_bounded_spec :
    ∀ (fuel : Nat) (count : Int) (s : BaseSwitch) (b : Board),
      s.state = b.value s.gpio_pin → 0 ≤ count → count.toNat ≤ fuel →
      ∃ s' b', periodicLoop false fuel count s b = some (s', b', none) ∧
        s'.switch_count = s.switch_count + count.toNat ∧
        s'.state = b'.value s'.gpio_pin := by
  intro fuel
  induction fuel with
  | zero =>
      intro count s b hsync h0 hf
      have hc : ¬ count > 0 := by omega
      exact ⟨s, b, periodicLoop_exit 0 count s b hc, by omega, hsync⟩
  | succ fuel ih =>
      intro count s b hsync h0 hf
      by_cases hc : count > 0
      · have htog := toggleSwitch_ok s b hsync
        obtain ⟨s', b', hrun, hcount, hsync'⟩ :=
          ih (count - 1) (s.set b (!s.state)).1 (s.set b (!s.state)).2
            (set_sync s b (!s.state)) (by omega) (by omega)
        refine ⟨s', b', ?_, ?_, hsync'⟩
        · rw [periodicLoop_step fuel count s b _ _ hc htog]
          exact hrun
        · have : (s.set b (!s.state)).1.switch_count = s.switch_count + 1 := rfl
          omega
      · exact ⟨s, b, periodicLoop_exit (fuel + 1) count s b hc, by omega, hsync⟩

/-- An in-range `Manifold.value` delegates to the device's `value`. -/
theorem Manifold.value_some {D : Type} (m : Manifold D) (index : Int)
    (d : D) (hcheck : ¬ (index < 0 ∨ index ≥ m.size))
    (hd : m.switches[index.toNat]? = some d) :
    m.value index = m.ops.value d := by
  rw [Manifold.value, if_neg hcheck, hd]

/-- After `set_one_hot m index`, reading any in-range position `j`
yields `j == index` (for devices whose `value` reports the state last
`set`). -/
theorem set_one_hot_values {D : Type} (m : Manifold D)
    (hlen : m.switches.length = m.size.toNat)
    (hops : ∀ d st, m.ops.value (m.ops.set d st) = .ok st)
    (index : Int) :
    ∃ m', set_one_hot m index = .ok m' ∧ m'.size = m.size ∧
      ∀ j : Int, 0 ≤ j → j < m.size →
        m'.value j = .ok (decide (j = index)) := by
  obtain ⟨m', h₁, h₂, h₃, h₄, h₅⟩ := set_one_hot_eq m index
  refine ⟨m', h₁, h₃, fun j hj0 hj => ?_⟩
  have hjnat : j.toNat < m.size.toNat := by omega
  have hjlen : j.toNat < m.switches.length := by omega
  have hd : m.switches[j.toNat]? = some m.switches[j.toNat] :=
    List.getElem?_eq_getElem hjlen
  have hd' : m'.switches[j.toNat]? =
      some (m.ops.set m.switches[j.toNat] (decide (((j.toNat : Nat) : Int) = index))) := by
    rw [h₅ j.toNat hjnat, hd, Option.map_some']
  have hcheck : ¬ (j < 0 ∨ j ≥ m'.size) := by
    rw [h₃]; omega
  rw [Manifold.value_some m' j _ hcheck hd', h₂, hops,
    Int.toNat_of_nonneg hj0]

/-- C2: for a well-formed manifold whose devices report the state they
were last commanded, `set_one_hot(m, i)` with `0 ≤ i < size` succeeds,
the device at `i` then reads `true` and every other in-range device
reads `false`; the loop issues its commands in strictly
index-ascending order. -/
theorem set_one_hot_selects_exactly_one {D : Type} (m : Manifold D)
    (hlen : m.switches.length = m.size.toNat)
    (hops : ∀ d st, m.ops.value (m.ops.set d st) = .ok st)
    (i : Int) (h0 : 0 ≤ i) (hi : i < m.size) :
    ∃ m', set_one_hot m i = .ok m' ∧
      m'.value i = .ok true ∧
      (∀ j : Int, 0 ≤ j → j < m.size → j ≠ i → m'.value j = .ok false) ∧
      (set_one_hot_commands m i).map Prod.fst = List.range m.size.toNat ∧
      List.Pairwise (· < ·) ((set_one_hot_commands m i).map Prod.fst) := by
  obtain ⟨m', h₁, hsz, hval⟩ := set_one_hot_values m hlen hops i
  have hcmds : (set_one_hot_commands m i).map Prod.fst =
      List.range m.size.toNat := by
    simp [set_one_hot_commands, List.map_map, Function.comp_def]
  refine ⟨m', h₁, ?_, ?_, hcmds, ?_⟩
  · rw [hval i h0 hi]
    simp
  · intro j hj0 hj hne
    rw [hval j hj0 hj]
    simp [hne]
  · rw [hcmds]
    exact List.pairwise_lt_range _

/-- Witness for C2 at the concrete four-valve manifold, `i = 2`. -/
theorem set_one_hot_selects_exactly_one_witness :
    ∃ m', set_one_hot manifold4 2 = .ok m' ∧
      m'.value 2 = .ok true ∧
      (∀ j : Int, 0 ≤ j → j < manifold4.size → j ≠ 2 →
        m'.value j = .ok false) ∧
      (set_one_hot_commands manifold4 2).map Prod.fst =
        List.range manifold4.size.toNat ∧
      List.Pairwise (· < ·)
        ((set_one_hot_commands manifold4 2).map Prod.fst) :=
  set_one_hot_selects_exactly_one manifold4 rfl valveOps_faithful 2
    (by decide) (by decide)

/-- C10: for any out-of-range index (negative or `≥ size`),
`set_one_hot` completes without raising — no range fault — and every
device ends commanded OFF (reads `false`), so no device ends ON and
the one-hot postcondition silently fails. -/
theorem set_one_hot_out_of_range_spec {D : Type} (m : Manifold D)
    (hlen : m.switches.length = m.size.toNat)
    (hops : ∀ d st, m.ops.value (m.ops.set d st) = .ok st)
    (index : Int) (h : index < 0 ∨ index ≥ m.size) :
    ∃ m', set_one_hot m index = .ok m' ∧
      ∀ j : Int, 0 ≤ j → j < m.size → m'.value j = .ok false := by
  obtain ⟨m', h₁, hsz, hval⟩ := set_one_hot_values m hlen hops index
  refine ⟨m', h₁, fun j hj0 hj => ?_⟩
  rw [hval j hj0 hj]
  have : j ≠ index := by omega
  simp [this]

/-- Witness for C10 at the concrete four-valve manifold and
`index = 7`. -/
theorem set_one_hot_out_of_range_spec_witness :
    ∃ m', set_one_hot manifold4 7 = .ok m' ∧
      ∀ j : Int, 0 ≤ j → j < manifold4.size → m'.value j = .ok false :=
  set_one_hot_out_of_range_spec manifold4 rfl valveOps_faithful 7
    (Or.inr (by decide))

/-- C3: `mkManifold` succeeds exactly for sizes in
`\x7b4, 8, 10, 16, 20\x7d`; on success the manifold has exactly `size`
devices, the device at position `j` constructed as
`switch_type(j, "Switch j")` (unique sequential pin/name pairs
`0..size-1`); for any other size it fails with
`InvalidManifoldSizeError`, producing no manifold and hence no
devices. -/
theorem manifold_construction_spec {D : Type} (ops : SwitchableOps D)
    (size : Int) :
    ((∃ m, mkManifold ops size = .ok m) ↔ size ∈ VALID_SIZES) ∧
    (size ∈ VALID_SIZES →
      ∃ m, mkManifold ops size = .ok m ∧ m.ops = ops ∧ m.size = size ∧
        (m.switches.length : Int) = size ∧
        (∀ j : Nat, j < m.switches.length →
          m.switches[j]? = some (ops.mkDevice j ("Switch " ++ toString j)))) ∧
    (size ∉ VALID_SIZES →
      ∃ msg, mkManifold ops size = .error (.invalidManifoldSizeError msg)) := by
  have hsucc : size ∈ VALID_SIZES →
      ∃ m, mkManifold ops size = .ok m ∧ m.ops = ops ∧ m.size = size ∧
        (m.switches.length : Int) = size ∧
        (∀ j : Nat, j < m.switches.length →
          m.switches[j]? =
            some (ops.mkDevice j ("Switch " ++ toString j))) := by
    intro h
    have hnonneg : 0 ≤ size := by
      have hall : ∀ x ∈ VALID_SIZES, (0 : Int) ≤ x := by decide
      exact hall size h
    refine ⟨_, by rw [mkManifold, if_pos h], rfl, rfl, ?_, ?_⟩
    · simp [Int.toNat_of_nonneg hnonneg]
    · intro j hj
      simp only [List.length_map, List.length_range] at hj
      simp [List.getElem?_map, List.getElem?_range hj]
  refine ⟨⟨?_, fun h => (hsucc h).imp (fun m hm => hm.1)⟩, hsucc, ?_⟩
  · rintro ⟨m, hm⟩
    by_contra h
    rw [mkManifold, if_neg h] at hm
    exact Except.noConfusion hm
  · intro h
    exact ⟨_, by rw [mkManifold, if_neg h]⟩

/-- Witness for C3 at sizes `8` (valid) and `5` (invalid). -/
theorem manifold_construction_spec_witness :
    (((∃ m, mkManifold valveOps 8 = .ok m) ↔ (8 : Int) ∈ VALID_SIZES) ∧
      ((8 : Int) ∈ VALID_SIZES →
        ∃ m, mkManifold valveOps 8 = .ok m ∧ m.ops = valveOps ∧
          m.size = 8 ∧ (m.switches.length : Int) = 8 ∧
          (∀ j : Nat, j < m.switches.length →
            m.switches[j]? =
              some (valveOps.mkDevice j ("Switch " ++ toString j)))) ∧
      ((8 : Int) ∉ VALID_SIZES →
        ∃ msg, mkManifold valveOps 8 =
          .error (.invalidManifoldSizeError msg))) ∧
    ((∃ m, mkManifold valveOps 5 = .ok m) ↔ (5 : Int) ∈ VALID_SIZES) ∧
    ((5 : Int) ∉ VALID_SIZES →
      ∃ msg, mkManifold valveOps 5 =
        .error (.invalidManifoldSizeError msg)) :=
  ⟨manifold_construction_spec valveOps 8,
   (manifold_construction_spec valveOps 5).1,
   (manifold_construction_spec valveOps 5).2.2⟩

/-- C1: a `BaseSwitch.value` call fails with a `SwitchingError` if and
only if the cached `_state` differs from a fresh Board read of the same
pin; on a mismatch it raises instead of returning a value (and, the
Python property being a pure read with no assignment, the embedded
`value` consumes the switch unchanged — no silent repair), and on
agreement it returns the cached state. -/
theorem switch_value_desync_spec (s : BaseSwitch) (b : Board) :
    ((∃ msg, s.value b = .error (.switchingError msg)) ↔
      s.state ≠ b.value s.gpio_pin) ∧
    (s.state = b.value s.gpio_pin → s.value b = .ok s.state) ∧
    (s.state ≠ b.value s.gpio_pin → ∀ v, s.value b ≠ .ok v) := by
  refine ⟨⟨?_, ?_⟩, fun h => BaseSwitch.value_ok s b h, ?_⟩
  · rintro ⟨msg, hmsg⟩ hsync
    rw [BaseSwitch.value_ok s b hsync] at hmsg
    exact Except.noConfusion hmsg
  · intro h
    exact ⟨_, BaseSwitch.value_error s b h⟩
  · intro h v
    rw [BaseSwitch.value_error s b h]
    exact fun hc => Except.noConfusion hc

/-- Witness for C1 at a concrete desynchronized switch: cached state
`false` (fresh switch) against an all-high board. -/
theorem switch_value_desync_spec_witness :
    ((∃ msg, (mkBaseSwitch ("s") 2).value
        { pins := fun _ => true, history := [] } =
          .error (.switchingError msg)) ↔
      (mkBaseSwitch ("s") 2).state ≠
        Board.value { pins := fun _ => true, history := [] }
          (mkBaseSwitch ("s") 2).gpio_pin) ∧
    ((mkBaseSwitch ("s") 2).state =
        Board.value { pins := fun _ => true, history := [] }
          (mkBaseSwitch ("s") 2).gpio_pin →
      (mkBaseSwitch ("s") 2).value { pins := fun _ => true, history := [] } =
        .ok (mkBaseSwitch ("s") 2).state) ∧
    ((mkBaseSwitch ("s") 2).state ≠
        Board.value { pins := fun _ => true, history := [] }
          (mkBaseSwitch ("s") 2).gpio_pin →
      ∀ v, (mkBaseSwitch ("s") 2).value { pins := fun _ => true, history := [] }
        ≠ .ok v) :=
  switch_value_desync_spec (mkBaseSwitch ("s") 2)
    { pins := fun _ => true, history := [] }

/-- C4 (amended): for the board-backed devices — `BaseSwitch` and
`Pump` — `set(state)` always succeeds, increments the internal
switch counter by exactly one, and issues exactly one command to the
underlying Board; `BaseValve.set` also always succeeds and increments
its counter by exactly one, but issues no Board command at all (its
body never touches the board). -/
theorem device_set_effects (s : BaseSwitch) (b : Board) (st : Bool)
    (v : BaseValve) :
    ((s.set b st).1.switch_count = s.switch_count + 1 ∧
     (s.set b st).2.history = b.history ++ [(s.gpio_pin, st)]) ∧
    Pump.set s b st = s.set b st ∧
    ((v.setWithBoard b st).1.switch_count = v.switch_count + 1 ∧
     (v.setWithBoard b st).2 = b ∧
     (v.setWithBoard b st).2.history = b.history) :=
  ⟨⟨rfl, rfl⟩, rfl, rfl, rfl, rfl⟩

/-- Counterexample to C4 as stated: a Valve's `set` issues no command
to the Board.  For a concrete freshly constructed valve and a board
with an empty command history, the history after `set(True)` still has
length 0, not 1. -/
theorem device_set_one_command_counterexample :
    ¬ (((mkBaseValve 0 ("v0") 0 ValveType.NORMALLY_OPEN).setWithBoard
          board0 true).2.history.length = board0.history.length + 1) := by
  decide

/-- C8: on any out-of-range index (negative or `≥ size`), both
`Manifold.set` and `Manifold.value` fail with the range fault
(Python's `ValueError`), returning no value (`Except.error` carries no
updated manifold, so no device is touched — the fault propagates to
the caller with no side effect). -/
theorem manifold_range_fault_spec {D : Type} (m : Manifold D)
    (index : Int) (state : Bool) (h : index < 0 ∨ index ≥ m.size) :
    (∃ msg, m.set index state = .error (.valueError msg)) ∧
    (∃ msg, m.value index = .error (.valueError msg)) ∧
    (∀ m', m.set index state ≠ .ok m') ∧
    (∀ v, m.value index ≠ .ok v) := by
  have h1 : m.set index state =
      .error (.valueError ("Index out of range: " ++ toString index)) := by
    rw [Manifold.set, if_pos h]
  have h2 : m.value index =
      .error (.valueError ("Index out of range: " ++ toString index)) := by
    rw [Manifold.value, if_pos h]
  refine ⟨⟨_, h1⟩, ⟨_, h2⟩, ?_, ?_⟩
  · intro m' hc
    rw [h1] at hc
    exact Except.noConfusion hc
  · intro v hc
    rw [h2] at hc
    exact Except.noConfusion hc

/-- Witness for C8 at the concrete four-valve manifold and
`index = size = 4`. -/
theorem manifold_range_fault_spec_witness :
    (∃ msg, manifold4.set 4 true = .error (.valueError msg)) ∧
    (∃ msg, manifold4.value 4 = .error (.valueError msg)) ∧
    (∀ m', manifold4.set 4 true ≠ .ok m') ∧
    (∀ v, manifold4.value 4 ≠ .ok v) :=
  manifold_range_fault_spec manifold4 4 true (Or.inr (by decide))

/-- C9: a valve constructed with `valve_type = NORMALLY_CLOSED` starts
in `CLOSED_FLOW` and its first `value()` returns `false`; one
constructed with `NORMALLY_OPEN` — the declared default — starts in
`OPEN_FLOW` and its first `value()` returns `true`. -/
theorem valve_initial_state_spec (pin : Nat) (name : String) (gpio : Nat) :
    (mkBaseValve pin name gpio ValveType.NORMALLY_CLOSED).state =
      ValveState.CLOSED_FLOW ∧
    (mkBaseValve pin name gpio ValveType.NORMALLY_CLOSED).value = false ∧
    (mkBaseValve pin name gpio ValveType.NORMALLY_OPEN).state =
      ValveState.OPEN_FLOW ∧
    (mkBaseValve pin name gpio ValveType.NORMALLY_OPEN).value = true ∧
    mkBaseValveDefault pin name gpio =
      mkBaseValve pin name gpio ValveType.NORMALLY_OPEN :=
  ⟨rfl, rfl, rfl, rfl, rfl⟩

/-- C5: whenever a device's `value` read succeeds, `toggle` is
`set(not value)`; two consecutive toggles restore the original value
(both as read and as cached) while the switch counter grows by exactly
2 — for the board-backed `BaseSwitch`, and unconditionally for
`BaseValve`. -/
theorem toggle_involution_spec (s : BaseSwitch) (b : Board) (v0 : Bool)
    (h : s.value b = .ok v0) :
    toggleSwitch s b = .ok (s.set b (!v0)) ∧
    (∃ s₁ b₁ s₂ b₂,
      toggleSwitch s b = .ok (s₁, b₁) ∧
      toggleSwitch s₁ b₁ = .ok (s₂, b₂) ∧
      s₂.value b₂ = .ok v0 ∧
      s₂.state = s.state ∧
      s₂.switch_count = s.switch_count + 2) ∧
    (∀ w : BaseValve,
      toggleValve w = w.set (!w.value) ∧
      (toggleValve (toggleValve w)).value = w.value ∧
      (toggleValve (toggleValve w)).switch_count = w.switch_count + 2) := by
  have hsync : s.state = b.value s.gpio_pin := by
    by_contra hne
    rw [BaseSwitch.value_error s b hne] at h
    exact Except.noConfusion h
  have hv : s.state = v0 := by
    rw [BaseSwitch.value_ok s b hsync] at h
    exact Except.ok.inj h
  refine ⟨by rw [toggleSwitch_ok s b hsync, hv], ?_, ?_⟩
  · refine ⟨(s.set b (!s.state)).1, (s.set b (!s.state)).2,
      ((s.set b (!s.state)).1.set (s.set b (!s.state)).2
        (!(s.set b (!s.state)).1.state)).1,
      ((s.set b (!s.state)).1.set (s.set b (!s.state)).2
        (!(s.set b (!s.state)).1.state)).2,
      toggleSwitch_ok s b hsync,
      toggleSwitch_ok _ _ (set_sync s b (!s.state)), ?_, ?_, ?_⟩
    · rw [BaseSwitch.value_ok _ _ (set_sync _ _ _)]
      simp [BaseSwitch.set, hv]
    · simp [BaseSwitch.set]
    · simp [BaseSwitch.set]
  · intro w
    refine ⟨rfl, ?_, rfl⟩
    rcases w with ⟨pin, name, gpio, vt, cnt, st⟩
    cases st <;> rfl

/-- Witness for C5 at a fresh switch (cached `false`) over an all-low
board, where the first `value` read returns `false`. -/
theorem toggle_involution_spec_witness :
    toggleSwitch (mkBaseSwitch ("s") 1) board0 =
      .ok ((mkBaseSwitch ("s") 1).set board0 (!false)) ∧
    (∃ s₁ b₁ s₂ b₂,
      toggleSwitch (mkBaseSwitch ("s") 1) board0 = .ok (s₁, b₁) ∧
      toggleSwitch s₁ b₁ = .ok (s₂, b₂) ∧
      s₂.value b₂ = .ok false ∧
      s₂.state = (mkBaseSwitch ("s") 1).state ∧
      s₂.switch_count = (mkBaseSwitch ("s") 1).switch_count + 2) ∧
    (∀ w : BaseValve,
      toggleValve w = w.set (!w.value) ∧
      (toggleValve (toggleValve w)).value = w.value ∧
      (toggleValve (toggleValve w)).switch_count = w.switch_count + 2) :=
  toggle_involution_spec (mkBaseSwitch ("s") 1) board0 false rfl

/-- C6: if the device raises a `SwitchingError` during a
`periodic_toggle` cycle, the loop terminates and the call returns
normally (`Except.ok`, the caught error only logged/reported); in
every other context — a direct `value`/`toggle` call, or a `Manifold`
read delegating to the device — the `SwitchingError` propagates to the
caller as `Except.error`. -/
theorem switching_error_propagation_spec (s : BaseSwitch) (b : Board)
    (hdesync : s.state ≠ b.value s.gpio_pin)
    (interval : Rat) (hi : 0 < interval) (lf : Bool) (count : Int)
    (hstart : count > 0 ∨ lf = true) (fuel : Nat) :
    (∃ msg, s.value b = .error (.switchingError msg)) ∧
    (∃ msg, toggleSwitch s b = .error (.switchingError msg)) ∧
    (∃ msg, periodic_toggle s b interval lf count (fuel + 1) =
      .ok (some (s, b, some (.switchingError msg)))) ∧
    (∀ (D : Type) (m : Manifold D) (idx : Int) (d : D) (e : DriverError),
      ¬ (idx < 0 ∨ idx ≥ m.size) → m.switches[idx.toNat]? = some d →
      m.ops.value d = .error e → m.value idx = .error e) := by
  have hrun : (lf || decide (count > 0)) = true := by
    rcases hstart with h | h <;> simp [h]
  refine ⟨⟨_, BaseSwitch.value_error s b hdesync⟩,
    ⟨_, toggleSwitch_error s b hdesync⟩,
    ⟨"Switch (" ++ s.name ++ ") is not set", ?_⟩, ?_⟩
  · rw [periodic_toggle, if_neg (not_not_intro hi),
      if_neg (not_not_intro hstart),
      periodicLoop_catch fuel count lf s b _ hrun
        (toggleSwitch_error s b hdesync)]
  · intro D m idx d e hcheck hd hval
    rw [Manifold.value_some m idx d hcheck hd, hval]

/-- Witness for C6: a fresh switch (cached `false`) against an
all-high board, `loop_forever = false`, `count = 2`. -/
theorem switching_error_propagation_spec_witness :
    (∃ msg, (mkBaseSwitch ("s") 2).value
        { pins := fun _ => true, history := [] } =
      .error (.switchingError msg)) ∧
    (∃ msg, toggleSwitch (mkBaseSwitch ("s") 2)
        { pins := fun _ => true, history := [] } =
      .error (.switchingError msg)) ∧
    (∃ msg, periodic_toggle (mkBaseSwitch ("s") 2)
        { pins := fun _ => true, history := [] } 1 false 2 (4 + 1) =
      .ok (some ((mkBaseSwitch ("s") 2),
        { pins := fun _ => true, history := [] },
        some (.switchingError msg)))) ∧
    (∀ (D : Type) (m : Manifold D) (idx : Int) (d : D) (e : DriverError),
      ¬ (idx < 0 ∨ idx ≥ m.size) → m.switches[idx.toNat]? = some d →
      m.ops.value d = .error e → m.value idx = .error e) :=
  switching_error_propagation_spec (mkBaseSwitch ("s") 2)
    { pins := fun _ => true, history := [] }
    (by decide) 1 (by norm_num) false 2 (Or.inl (by decide)) 4

/-- C7: when every toggle succeeds (cache/board agreement),
`periodic_toggle` with `interval > 0`, `loop_forever = false` and
`count = n > 0` (within fuel) toggles exactly `n` times and returns
normally, the switch counter growing by exactly `n`; with
`loop_forever = true` the result does not depend on `count`; with
`loop_forever = false` and `count ≤ 0` it fails fast with the
precondition fault. -/
theorem periodic_toggle_bounded_spec (s : BaseSwitch) (b : Board)
    (hsync : s.state = b.value s.gpio_pin)
    (interval : Rat) (hi : 0 < interval) (n : Int) (hn : 0 < n)
    (fuel : Nat) (hfuel : n.toNat ≤ fuel) :
    (∃ s' b', periodic_toggle s b interval false n fuel =
        .ok (some (s', b', none)) ∧
      s'.switch_count = s.switch_count + n.toNat) ∧
    (∀ c₁ c₂ : Int, periodic_toggle s b interval true c₁ fuel =
      periodic_toggle s b interval true c₂ fuel) ∧
    (∀ c : Int, ¬ c > 0 →
      periodic_toggle s b interval false c fuel =
        .error (.assertionError ("Must toggle at least once"))) := by
  refine ⟨?_, ?_, ?_⟩
  · obtain ⟨s', b', hrun, hcount, _⟩ :=
      periodicLoop_bounded_spec fuel n s b hsync (le_of_lt hn) hfuel
    refine ⟨s', b', ?_, hcount⟩
    rw [periodic_toggle, if_neg (not_not_intro hi),
      if_neg (not_not_intro (Or.inl hn)), hrun]
  · intro c₁ c₂
    rw [periodic_toggle, periodic_toggle,
      if_neg (not_not_intro hi), if_neg (not_not_intro hi),
      if_neg (not_not_intro (Or.inr rfl)),
      if_neg (not_not_intro (Or.inr rfl)),
      periodicLoop_forever_count_irrelevant fuel c₁ c₂ s b]
  · intro c hc
    have : ¬ (c > 0 ∨ false = true) := by
      rintro (h | h)
      · exact hc h
      · exact Bool.noConfusion h
    rw [periodic_toggle, if_neg (not_not_intro hi), if_pos this]

/-- Witness for C7: fresh switch over an all-low board, `count = 3`,
`interval = 1/100`, fuel 3. -/
theorem periodic_toggle_bounded_spec_witness :
    (∃ s' b', periodic_toggle (mkBaseSwitch ("s") 1) board0 (1 / 100)
        false 3 3 = .ok (some (s', b', none)) ∧
      s'.switch_count = (mkBaseSwitch ("s") 1).switch_count + (3 : Int).toNat) ∧
    (∀ c₁ c₂ : Int,
      periodic_toggle (mkBaseSwitch ("s") 1) board0 (1 / 100) true c₁ 3 =
        periodic_toggle (mkBaseSwitch ("s") 1) board0 (1 / 100) true c₂ 3) ∧
    (∀ c : Int, ¬ c > 0 →
      periodic_toggle (mkBaseSwitch ("s") 1) board0 (1 / 100) false c 3 =
        .error (.assertionError ("Must toggle at least once"))) :=
  periodic_toggle_bounded_spec (mkBaseSwitch ("s") 1) board0 rfl (1 / 100)
    (by norm_num) 3 (by decide) 3 (by decide)

end OpenOligo
